import Mathlib

/-!
Shallow embedding of the retrieval-augmentation bridge of the repository
(`src/core/rag_bridge.py`) and the chat front-end (`src/app.py`).

Modelling conventions:
* Python strings are Lean `String`s; a Python `float` vector is a `List ℚ`
  (the claims never do real-number arithmetic beyond comparison of
  distances, so rational coordinates model the numeric payload).
* The remote ZhipuAI embedding endpoint is an oracle
  `remote : String → Option (List ℚ)`; `none` models the call raising an
  exception, `some v` models a successful response carrying vector `v`.
* A `try ... except` block is modelled with `Except String`: the body is a
  value of `Except String α` and the handler pattern-matches on `.error`.
* The persisted ChromaDB state (`./chroma_db` plus the single collection
  `knowledge_base`) is `Option KnowledgeBase`: `none` models the directory
  not existing (no knowledge base ever built), `some store` the persisted
  collection holding its (chunk text, embedding vector) pairs.
-/

/-- The characters stripped by Python's `str.strip()` (ASCII whitespace;
the unicode extras are irrelevant to the inputs the claims mention). -/
def isPythonSpace (c : Char) : Bool :=
  c = ' ' ∨ c = '\t' ∨ c = '\n' ∨ c = '\r' ∨ c = '\x0b' ∨ c = '\x0c'

/-- `not s or not s.strip()` in Python: the string is empty or entirely
whitespace. Both `build_vector_store` and `query_vector_store` guard on
exactly this condition. -/
def isBlank (s : String) : Bool :=
  s.toList.all isPythonSpace

/-- Dimensionality of the `embedding-2` model's vectors
(`rag_bridge.py` line 67: `[0.0] * 1024`). -/
def embeddingDim : Nat := 1024

/-- The degraded-mode zero vector substituted on a failed remote call. -/
def zeroVector : List ℚ := List.replicate embeddingDim 0

/-- `ZhipuEmbedding.embed_documents` (`rag_bridge.py` lines 44-68): one
remote call per text; on a per-item exception the item degrades to the
1024-dimensional zero vector and the loop continues. -/
def embed_documents (remote : String → Option (List ℚ)) (texts : List String) :
    List (List ℚ) :=
  texts.map (fun text =>
    match remote text with
    | some embedding => embedding
    | none => zeroVector)

/-- `ZhipuEmbedding.embed_query` (`rag_bridge.py` lines 70-89): a single
remote call, degrading to the zero vector on exception. -/
def embed_query (remote : String → Option (List ℚ)) (text : String) : List ℚ :=
  match remote text with
  | some embedding => embedding
  | none => zeroVector

/-- A persisted collection: the ordered (chunk text, embedding) pairs
written by `Chroma.from_texts`. -/
abbrev KnowledgeBase := List (String × List ℚ)

/-- `vector_store.delete_collection()` wrapped in `try/except: pass`
(`rag_bridge.py` lines 186-189): drops the collection whether or not it
exists; total, never an error. -/
def deleteCollection (_kb : Option KnowledgeBase) : Option KnowledgeBase :=
  none

/-- Message returned when the input text is blank (`rag_bridge.py` line 154). -/
def emptyDocMsg : String := "⚠️ 文本内容为空，无法构建知识库"

/-- Message returned when splitting produced no chunks (line 170). -/
def emptyChunksMsg : String := "⚠️ 文本切片后为空，无法构建知识库"

/-- Success message of `build_vector_store` (line 206). -/
def successMsg (n : Nat) : String :=
  "✅ 知识库构建完成！共处理 " ++ toString n ++ " 个文本片段。"

/-- `build_vector_store` (`rag_bridge.py` lines 142-211).
`split` is the configured `RecursiveCharacterTextSplitter.split_text`
(a fixed function of the input text), `remote` the embedding endpoint.
Returns the user-visible message and the resulting persisted state:
blank input and zero chunks are rejected before any store mutation;
otherwise the old collection is dropped and `Chroma.from_texts` writes
the new chunks paired with their embeddings. -/
def build_vector_store (split : String → List String)
    (remote : String → Option (List ℚ))
    (text_content : String) (kb : Option KnowledgeBase) :
    String × Option KnowledgeBase :=
  if isBlank text_content then
    (emptyDocMsg, kb)
  else
    let chunks := split text_content
    if chunks.isEmpty then
      (emptyChunksMsg, kb)
    else
      let _kbDropped := deleteCollection kb
      let vectors := embed_documents remote chunks
      (successMsg chunks.length, some (chunks.zip vectors))

/-- Message returned when `./chroma_db` does not exist (`rag_bridge.py`
line 238). -/
def notBuiltMsg : String := "⚠️ 知识库尚未构建，请先上传文档构建知识库"

/-- Message returned when the similarity search yields no documents
(line 254). -/
def noResultsMsg : String := "⚠️ 未找到相关文档片段"

/-- The separator joining retrieved chunk texts (line 258). -/
def chunkSeparator : String := "\n\n---\n\n"

/-- The body of `query_vector_store`'s `try` block (`rag_bridge.py`
lines 229-260), as an `Except`: `getEmb` models `_get_embedding_instance`
(which can raise / `st.stop`), `search` models
`vector_store.similarity_search(question, k)` over the persisted pairs
(which can raise), returning documents whose `page_content` is the pair's
first component. -/
def queryBody (getEmb : Except String (String → Option (List ℚ)))
    (search : KnowledgeBase → String → Nat → Except String KnowledgeBase)
    (question : String) (k : Nat) (kb : Option KnowledgeBase) :
    Except String String := do
  let _remote ← getEmb
  match kb with
  | none => pure notBuiltMsg
  | some store =>
    let results ← search store question k
    if results.isEmpty then
      pure noResultsMsg
    else
      pure (String.intercalate chunkSeparator (results.map Prod.fst))

/-- `query_vector_store` (`rag_bridge.py` lines 214-265): blank questions
short-circuit to `""`; any exception escaping the body is reported via
`st.error` and the function returns `""`. -/
def query_vector_store (getEmb : Except String (String → Option (List ℚ)))
    (search : KnowledgeBase → String → Nat → Except String KnowledgeBase)
    (question : String) (k : Nat) (kb : Option KnowledgeBase) : String :=
  if isBlank question then ""
  else
    match queryBody getEmb search question k kb with
    | Except.ok s => s
    | Except.error _ => ""

/-- Modelled from the spec: the Text Chunker of spec section 4.1. The
repository delegates chunking to langchain's
`RecursiveCharacterTextSplitter` (`rag_bridge.py` lines 161-167), whose
source is not part of this repository. Per the spec, a chunk greedily
extends up to `size` characters and backtracks to the latest preferred
boundary — abstracted here as the `choose` function picking the cut
position, clamped to `overlap < cut ≤ size` so every step makes progress —
and the next chunk starts `overlap` characters before the previous chunk's
end, so adjacent chunks share `overlap` characters. Empty input yields no
chunks; input no longer than `size` yields exactly one chunk. -/
def chunkChars (size overlap : Nat) (hso : overlap < size)
    (choose : List Char → Nat) (cs : List Char) : List (List Char) :=
  if _h : cs.length ≤ size then
    if cs.isEmpty then [] else [cs]
  else
    cs.take (max (overlap + 1) (min size (choose cs))) ::
      chunkChars size overlap hso choose
        (cs.drop (max (overlap + 1) (min size (choose cs)) - overlap))
  termination_by cs.length
  decreasing_by simp only [List.length_drop]; omega

/-- The configured splitter of `build_vector_store`: chunk size 500,
overlap 50 (`rag_bridge.py` lines 162-163), lifted to strings. -/
def split_text (choose : List Char → Nat) (s : String) : List String :=
  (chunkChars 500 50 (by omega) choose s.data).map String.mk

/-- A chunk's non-overlapping portion: every chunk after the first shares
its first `overlap` characters with its predecessor, so concatenating the
first chunk with each later chunk minus that shared prefix should rebuild
the document. -/
def reconstruct (overlap : Nat) : List (List Char) → List Char
  | [] => []
  | c :: rest => c ++ (rest.map (fun d => d.drop overlap)).flatten

/-- Squared L2 distance between two vectors, coordinatewise over the
shared prefix. -/
def l2sqDist (u v : List ℚ) : ℚ :=
  ((u.zip v).map (fun p => (p.1 - p.2) ^ 2)).sum

/-- Modelled from the spec: `vector_store.similarity_search(question, k)`
(spec section 4.3) — the Chroma vector index, an external collaborator
whose source is not part of this repository. It embeds the query with the
collection's embedding function and returns at most `k` stored documents
ranked by similarity, nearest first. -/
def similarity_search (remote : String → Option (List ℚ))
    (store : KnowledgeBase) (question : String) (k : Nat) : KnowledgeBase :=
  (List.insertionSort
    (fun a b =>
      l2sqDist a.2 (embed_query remote question) ≤
        l2sqDist b.2 (embed_query remote question))
    store).take k

/-- Message roles used by `app.py` (system / user / assistant). -/
inductive Role where
  | system
  | user
  | assistant
deriving DecidableEq, Repr

/-- A chat message as submitted to the completion endpoint:
`\x7brole, content\x7d` dictionaries in `app.py`. -/
structure Message where
  role : Role
  content : String
deriving DecidableEq, Repr

/-- `base_system_prompt` (`app.py` lines 86-89): the fixed persona block
(triple-quoted, so it begins and ends with a newline). -/
def base_system_prompt : String :=
  "\n你是一位工业维修专家。\n请基于以下【参考资料】回答用户问题。如果资料中没有答案，请使用你的专业知识补充，但要说明\"资料中未提及\"。\n"

/-- The dynamic system prompt (`app.py` lines 117-125): when the retrieval
context is non-empty (`if context:`) the persona block is wrapped with a
reference-material section holding the context; otherwise the bare persona
block is used. -/
def finalSystemContent (context : String) : String :=
  if context.isEmpty then base_system_prompt
  else "\n" ++ base_system_prompt ++ "\n\n【参考资料】：\n" ++ context ++ "\n"

/-- `handle_chat` (`app.py` lines 102-142), with the effectful
collaborators as parameters: `ready` is
`st.session_state.knowledge_base_ready`, `queryFn` is
`query_vector_store(·, k=3)` with its environment fixed, `reply` the text
streamed back by the completion endpoint, `messages` the stored
`st.session_state.messages`. Returns the `api_messages` list submitted to
the model and the stored history after the turn: the user message is
appended to the history, the recomputed system message is prepended (not
stored), and the assistant reply is appended after the stream finishes. -/
def handle_chat (ready : Bool) (queryFn : String → String) (reply : String)
    (messages : List Message) (user_input : String) :
    List Message × List Message :=
  let messages₁ := messages ++ [⟨Role.user, user_input⟩]
  let context := if ready then queryFn user_input else ""
  let api_messages := Message.mk Role.system (finalSystemContent context) :: messages₁
  (api_messages, messages₁ ++ [⟨Role.assistant, reply⟩])

/-- The session state kept by `app.py`: the `knowledge_base_ready` flag,
the persisted store, and the message of the most recent
`build_vector_store` call (if any). -/
structure AppState where
  ready : Bool
  kb : Option KnowledgeBase
  lastBuild : Option String
deriving DecidableEq, Repr

/-- Initial session state (`app.py` lines 7-11): no history, flag false,
no knowledge base built. -/
def initState : AppState :=
  { ready := false, kb := none, lastBuild := none }

/-- One rerun of the sidebar upload logic (`app.py` lines 22-76),
abstracted over what the file uploader and PDF extraction produced. -/
inductive UploadEvent where
  | newFile (text : String)
  | newFileNoText
  | sameFile
  | readError
  | removed

/-- The sidebar's state transition (`app.py` lines 22-76): a newly
uploaded file with non-empty extracted text runs `build_vector_store` and
sets the flag to whether the result message starts with the success prefix
(lines 64-67); extraction yielding no text, or re-seeing the same file,
changes nothing; a read error (line 73) or removing the file (line 76)
resets the flag to false without touching the store. -/
def sidebarStep (split : String → List String)
    (remote : String → Option (List ℚ))
    (s : AppState) (e : UploadEvent) : AppState :=
  match e with
  | UploadEvent.newFile text =>
    let result := build_vector_store split remote text s.kb
    { ready := result.1.startsWith "✅", kb := result.2, lastBuild := some result.1 }
  | UploadEvent.newFileNoText => s
  | UploadEvent.sameFile => s
  | UploadEvent.readError => { s with ready := false }
  | UploadEvent.removed => { s with ready := false }

/-- The invariant claimed of the flag: whenever it is set, the most recent
`build_vector_store` call reported success (its message begins with the
success prefix). -/
def ReadyInv (s : AppState) : Prop :=
  s.ready = true → ∃ m, s.lastBuild = some m ∧ m.startsWith "✅" = true

theorem chunkChars_drop_flatten (size overlap : Nat) (hso : overlap < size)
    (choose : List Char → Nat) (cs : List Char) :
    ((chunkChars size overlap hso choose cs).map (fun d => d.drop overlap)).flatten
      = cs.drop overlap := by
  suffices H : ∀ (n : Nat) (cs : List Char), cs.length ≤ n →
      ((chunkChars size overlap hso choose cs).map (fun d => d.drop overlap)).flatten
        = cs.drop overlap from H cs.length cs le_rfl
  intro n
  induction n with
  | zero =>
    intro cs hcs
    have : cs = [] := List.eq_nil_of_length_eq_zero (Nat.le_zero.mp hcs)
    subst this
    rw [chunkChars]
    simp
  | succ n ih =>
    intro cs hcs
    rw [chunkChars]
    by_cases h : cs.length ≤ size
    · rw [dif_pos h]
      by_cases he : cs.isEmpty
      · rw [if_pos he]
        simp [List.isEmpty_iff.mp he]
      · rw [if_neg he]
        simp
    · rw [dif_neg h]
      have hcut : overlap + 1 ≤ max (overlap + 1) (min size (choose cs)) :=
        Nat.le_max_left _ _
      have hlen : (cs.drop (max (overlap + 1) (min size (choose cs)) - overlap)).length ≤ n := by
        simp only [List.length_drop]
        omega
      simp only [List.map_cons, List.flatten_cons, ih _ hlen]
      rw [List.drop_take, List.drop_drop]
      have heq : max (overlap + 1) (min size (choose cs)) - overlap + overlap
          = overlap + (max (overlap + 1) (min size (choose cs)) - overlap) := by omega
      rw [heq, ← List.drop_drop, List.take_append_drop]

theorem chunkChars_reconstruct (size overlap : Nat) (hso : overlap < size)
    (choose : List Char → Nat) (cs : List Char) :
    reconstruct overlap (chunkChars size overlap hso choose cs) = cs := by
  rw [chunkChars]
  by_cases h : cs.length ≤ size
  · rw [dif_pos h]
    by_cases he : cs.isEmpty
    · rw [if_pos he, List.isEmpty_iff.mp he]
      rfl
    · rw [if_neg he]
      simp [reconstruct]
  · rw [dif_neg h]
    have hcut : overlap + 1 ≤ max (overlap + 1) (min size (choose cs)) :=
      Nat.le_max_left _ _
    simp only [reconstruct, chunkChars_drop_flatten, List.drop_drop]
    have heq : max (overlap + 1) (min size (choose cs)) - overlap + overlap
        = max (overlap + 1) (min size (choose cs)) := by omega
    rw [heq, List.take_append_drop]

/-- C2: for every input string, the configured chunker (chunk size 500,
overlap 50) produces chunks whose non-overlapping portions, concatenated
in order, reconstruct the original input text exactly — the chunk
sequence covers the entire input with no gaps. -/
theorem chunking_reconstructs_input (choose : List Char → Nat) (s : String) :
    String.mk (reconstruct 50 ((split_text choose s).map String.data)) = s := by
  have hdata : (split_text choose s).map String.data
      = chunkChars 500 50 (by omega) choose s.data := by
    have hid : (String.data ∘ String.mk) = id := rfl
    rw [split_text, List.map_map, hid, List.map_id]
  rw [hdata, chunkChars_reconstruct]

/-- C1 (counterexample): with no knowledge base built (`./chroma_db`
absent) and a non-blank question, `query_vector_store` returns the
non-empty warning message of line 238, not the empty string the claim
requires. -/
theorem query_before_build_not_empty :
    query_vector_store (Except.ok (fun _ => none)) (fun _ _ _ => Except.ok [])
        "伺服电机故障" 3 none = notBuiltMsg
      ∧ notBuiltMsg ≠ "" := by
  constructor
  · rfl
  · decide

/-- C1 (amended): a blank or whitespace-only question returns `""` with no
error; a non-blank question asked before any knowledge base has been built
(the embedding instance being obtainable) returns the fixed non-empty
warning message `notBuiltMsg` — in both cases the call returns normally
rather than raising. -/
theorem query_blank_or_unbuilt (getEmb : Except String (String → Option (List ℚ)))
    (search : KnowledgeBase → String → Nat → Except String KnowledgeBase)
    (question : String) (k : Nat) (kb : Option KnowledgeBase)
    (remote : String → Option (List ℚ)) :
    (isBlank question = true → query_vector_store getEmb search question k kb = "")
    ∧ (isBlank question = false →
        query_vector_store (Except.ok remote) search question k none = notBuiltMsg) := by
  constructor
  · intro h
    simp [query_vector_store, h]
  · intro h
    simp [query_vector_store, queryBody, h]

theorem query_blank_or_unbuilt_witness :
    (isBlank "   " = true
      ∧ query_vector_store (Except.ok (fun _ => none)) (fun _ _ _ => Except.ok [])
          "   " 3 none = "")
    ∧ (isBlank "q" = false
      ∧ query_vector_store (Except.ok (fun _ => none)) (fun _ _ _ => Except.ok [])
          "q" 3 none = notBuiltMsg) :=
  ⟨⟨by decide,
    (query_blank_or_unbuilt (Except.ok (fun _ => none)) (fun _ _ _ => Except.ok [])
      "   " 3 none (fun _ => none)).1 (by decide)⟩,
   ⟨by decide,
    (query_blank_or_unbuilt (Except.ok (fun _ => none)) (fun _ _ _ => Except.ok [])
      "q" 3 none (fun _ => none)).2 (by decide)⟩⟩

/-- C3: `embed_documents` returns exactly one vector per input text in
input order; an item whose remote call fails yields the 1024-dimensional
zero vector at that item's position, an item whose remote call succeeds
yields the returned vector at its position — the batch is never
aborted. -/
theorem embed_documents_one_per_text (remote : String → Option (List ℚ))
    (texts : List String) :
    (embed_documents remote texts).length = texts.length
    ∧ zeroVector = List.replicate 1024 0
    ∧ ∀ (i : Nat) (hi : i < texts.length)
        (hi' : i < (embed_documents remote texts).length),
        (remote (texts.get ⟨i, hi⟩) = none →
          (embed_documents remote texts).get ⟨i, hi'⟩ = zeroVector)
        ∧ ∀ v, remote (texts.get ⟨i, hi⟩) = some v →
            (embed_documents remote texts).get ⟨i, hi'⟩ = v := by
  refine ⟨by simp [embed_documents], rfl, ?_⟩
  intro i hi hi'
  constructor
  · intro hnone
    rw [List.get_eq_getElem] at hnone
    simp [embed_documents, hnone]
  · intro v hv
    rw [List.get_eq_getElem] at hv
    simp [embed_documents, hv]

theorem embed_documents_one_per_text_witness :
    (embed_documents (fun t => if t = "b" then some [5] else none)
        ["a", "b"]).length = 2
    ∧ ((fun t => if t = "b" then some [(5 : ℚ)] else none) "a" = none
      ∧ (embed_documents (fun t => if t = "b" then some [5] else none)
          ["a", "b"]).get ⟨0, by decide⟩ = zeroVector)
    ∧ (embed_documents (fun t => if t = "b" then some [5] else none)
        ["a", "b"]).get ⟨1, by decide⟩ = [5] :=
  ⟨(embed_documents_one_per_text (fun t => if t = "b" then some [5] else none)
      ["a", "b"]).1,
   ⟨rfl,
    ((embed_documents_one_per_text (fun t => if t = "b" then some [5] else none)
        ["a", "b"]).2.2 0 (by decide) (by decide)).1 rfl⟩,
   ((embed_documents_one_per_text (fun t => if t = "b" then some [5] else none)
      ["a", "b"]).2.2 1 (by decide) (by decide)).2 [5] rfl⟩

/-- C4: a blank or whitespace-only document is rejected by
`build_vector_store` with the empty-document message before any chunking
or embedding (the result does not depend on the splitter or the embedding
endpoint) and the stored knowledge base is returned unchanged. -/
theorem build_rejects_blank (split : String → List String)
    (remote : String → Option (List ℚ)) (text : String)
    (kb : Option KnowledgeBase) (h : isBlank text = true) :
    build_vector_store split remote text kb = (emptyDocMsg, kb) := by
  simp [build_vector_store, h]

theorem build_rejects_blank_witness :
    isBlank "   " = true
    ∧ build_vector_store (fun s => [s]) (fun _ => none) "   "
        (some [("old", [7])]) = (emptyDocMsg, some [("old", [7])]) :=
  ⟨by decide,
   build_rejects_blank (fun s => [s]) (fun _ => none) "   "
     (some [("old", [7])]) (by decide)⟩

/-- C5: `query_vector_store` never propagates an exception: if obtaining
the embedding instance fails, or the similarity search over a built store
fails, the reported failure degrades to the empty context string `""`. -/
theorem query_failure_degrades_to_empty (e : String)
    (search : KnowledgeBase → String → Nat → Except String KnowledgeBase)
    (question : String) (k : Nat) (kb : Option KnowledgeBase)
    (remote : String → Option (List ℚ)) (store : KnowledgeBase) :
    query_vector_store (Except.error e) search question k kb = ""
    ∧ (search store question k = Except.error e →
        query_vector_store (Except.ok remote) search question k (some store) = "") := by
  constructor
  · unfold query_vector_store
    split
    · rfl
    · rfl
  · intro hs
    unfold query_vector_store
    split
    · rfl
    · unfold queryBody
      simp only [hs]
      rfl

theorem query_failure_degrades_to_empty_witness :
    query_vector_store (Except.error "boom") (fun _ _ _ => Except.error "boom")
        "q" 3 (some [("c", [0])]) = ""
    ∧ ((fun (_ : KnowledgeBase) (_ : String) (_ : Nat) =>
          (Except.error "boom" : Except String KnowledgeBase)) [("c", [0])] "q" 3
        = Except.error "boom"
      ∧ query_vector_store (Except.ok (fun _ => none))
          (fun _ _ _ => Except.error "boom") "q" 3 (some [("c", [0])]) = "") :=
  ⟨(query_failure_degrades_to_empty "boom" (fun _ _ _ => Except.error "boom")
      "q" 3 (some [("c", [0])]) (fun _ => none) [("c", [0])]).1,
   rfl,
   (query_failure_degrades_to_empty "boom" (fun _ _ _ => Except.error "boom")
      "q" 3 (some [("c", [0])]) (fun _ => none) [("c", [0])]).2 rfl⟩

/-- C7: a successful `build_vector_store` fully replaces the prior
knowledge base: whatever was stored before, the existing collection is
dropped (dropping is total: on a nonexistent collection it is not an
error) and the resulting collection holds exactly the new document's
chunks paired with their embeddings — old content is never merged in. -/
theorem build_replaces_store (split : String → List String)
    (remote : String → Option (List ℚ)) (text : String)
    (h1 : isBlank text = false) (h2 : (split text).isEmpty = false) :
    (∀ kb, build_vector_store split remote text kb
        = (successMsg (split text).length,
           some ((split text).zip (embed_documents remote (split text)))))
    ∧ ∀ kb, deleteCollection kb = none := by
  constructor
  · intro kb
    simp [build_vector_store, h1, h2]
  · intro kb
    rfl

theorem build_replaces_store_witness :
    isBlank "设备手册" = false
    ∧ (((fun s => [s]) "设备手册" : List String)).isEmpty = false
    ∧ build_vector_store (fun s => [s]) (fun _ => some [1]) "设备手册"
        (some [("old", [7])])
      = (successMsg 1, some [("设备手册", [1])])
    ∧ deleteCollection none = none :=
  ⟨by decide, by decide,
   ((build_replaces_store (fun s => [s]) (fun _ => some [1]) "设备手册"
       (by decide) (by decide)).1 (some [("old", [7])])).trans (by decide),
   (build_replaces_store (fun s => [s]) (fun _ => some [1]) "设备手册"
       (by decide) (by decide)).2 none⟩

/-- C8: ingestion is idempotent: running `build_vector_store` on the same
document against the state produced by a first run returns the same
message and the same knowledge base as the first run — identical chunk
count and identical chunk contents. -/
theorem build_idempotent (split : String → List String)
    (remote : String → Option (List ℚ)) (text : String)
    (kb : Option KnowledgeBase) :
    build_vector_store split remote text
        (build_vector_store split remote text kb).2
      = build_vector_store split remote text kb := by
  by_cases h1 : isBlank text
  · simp [build_vector_store, h1]
  · by_cases h2 : (split text).isEmpty
    · simp [build_vector_store, h1, h2]
    · simp [build_vector_store, h1, h2]

theorem similarity_search_length (remote : String → Option (List ℚ))
    (store : KnowledgeBase) (question : String) (k : Nat) :
    (similarity_search remote store question k).length = min k store.length := by
  unfold similarity_search
  rw [List.length_take, (List.perm_insertionSort _ store).length_eq]

/-- C6: against a built knowledge base (a non-empty stored collection) and
with a non-blank question and positive `k`, `query_vector_store` returns
the texts of the retrieved chunks joined with the separator
`"\n\n---\n\n"`, and the retrieved chunks are at most `k`, ordered
nearest-first by distance to the embedded question. -/
theorem query_joins_topk_nearest_first (remote : String → Option (List ℚ))
    (store : KnowledgeBase) (question : String) (k : Nat)
    (hk : 0 < k) (hs : store ≠ []) (hq : isBlank question = false) :
    query_vector_store (Except.ok remote)
        (fun st q n => Except.ok (similarity_search remote st q n))
        question k (some store)
      = String.intercalate chunkSeparator
          ((similarity_search remote store question k).map Prod.fst)
    ∧ (similarity_search remote store question k).length ≤ k
    ∧ List.Pairwise
        (fun a b => l2sqDist a.2 (embed_query remote question)
          ≤ l2sqDist b.2 (embed_query remote question))
        (similarity_search remote store question k) := by
  have hne : (similarity_search remote store question k).isEmpty = false := by
    rw [List.isEmpty_eq_false_iff_exists_mem]
    have hpos : 0 < (similarity_search remote store question k).length := by
      rw [similarity_search_length]
      have := List.length_pos.mpr hs
      omega
    exact List.exists_mem_of_length_pos hpos
  refine ⟨?_, ?_, ?_⟩
  · unfold query_vector_store
    rw [if_neg (by simp [hq])]
    unfold queryBody
    show (match (if (similarity_search remote store question k).isEmpty = true then
        (pure noResultsMsg : Except String String)
      else pure (String.intercalate chunkSeparator
        ((similarity_search remote store question k).map Prod.fst))) with
      | Except.ok s => s
      | Except.error _ => "") = _
    rw [if_neg (by simp [hne])]
    rfl
  · rw [similarity_search_length]
    exact Nat.min_le_left _ _
  · unfold similarity_search
    refine List.Pairwise.sublist (List.take_sublist _ _) ?_
    haveI : IsTotal (String × List ℚ)
        (fun a b => l2sqDist a.2 (embed_query remote question)
          ≤ l2sqDist b.2 (embed_query remote question)) :=
      ⟨fun a b => le_total _ _⟩
    haveI : IsTrans (String × List ℚ)
        (fun a b => l2sqDist a.2 (embed_query remote question)
          ≤ l2sqDist b.2 (embed_query remote question)) :=
      ⟨fun _ _ _ hab hbc => le_trans hab hbc⟩
    exact List.sorted_insertionSort _ store

theorem query_joins_topk_nearest_first_witness :
    0 < 1 ∧ ([("近", [(0 : ℚ)])] : KnowledgeBase) ≠ []
    ∧ isBlank "q" = false
    ∧ query_vector_store (Except.ok (fun _ => some [0]))
        (fun st q n => Except.ok (similarity_search (fun _ => some [0]) st q n))
        "q" 1 (some [("近", [0])]) = "近" :=
  ⟨Nat.one_pos, by decide, by decide,
   ((query_joins_topk_nearest_first (fun _ => some [0])
      [("近", [0])] "q" 1 Nat.one_pos (by decide) (by decide)).1).trans
     (by decide)⟩

/-- C9: on every chat turn the system message is recomputed from the fixed
persona block plus the current retrieval context (the reference-material
section is included only when the context is non-empty) and prepended to
the submitted message list; the stored history receives only the user and
assistant messages, so a history holding no system message stays free of
them. -/
theorem system_prompt_recomputed (ready : Bool) (queryFn : String → String)
    (reply : String) (messages : List Message) (user_input : String) :
    (handle_chat ready queryFn reply messages user_input).1
      = Message.mk Role.system
          (finalSystemContent (if ready then queryFn user_input else ""))
        :: (messages ++ [Message.mk Role.user user_input])
    ∧ (handle_chat ready queryFn reply messages user_input).2
      = messages
        ++ [Message.mk Role.user user_input, Message.mk Role.assistant reply]
    ∧ finalSystemContent "" = base_system_prompt
    ∧ (∀ ctx : String, ctx.isEmpty = false →
        finalSystemContent ctx
          = "\n" ++ base_system_prompt ++ "\n\n【参考资料】：\n" ++ ctx ++ "\n")
    ∧ ((∀ m ∈ messages, m.role ≠ Role.system) →
        ∀ m ∈ (handle_chat ready queryFn reply messages user_input).2,
          m.role ≠ Role.system) := by
  refine ⟨rfl, by simp [handle_chat], rfl, ?_, ?_⟩
  · intro ctx hctx
    simp [finalSystemContent, hctx]
  · intro h m hm
    simp [handle_chat] at hm
    rcases hm with hm | hm | hm
    · exact h m hm
    · subst hm; simp
    · subst hm; simp

theorem system_prompt_recomputed_witness :
    (handle_chat true (fun _ => "ctx") "re" [] "hi").1
      = Message.mk Role.system (finalSystemContent "ctx")
        :: [Message.mk Role.user "hi"]
    ∧ (handle_chat true (fun _ => "ctx") "re" [] "hi").2
      = [Message.mk Role.user "hi", Message.mk Role.assistant "re"]
    ∧ ("ctx" : String).isEmpty = false
    ∧ finalSystemContent "ctx"
      = "\n" ++ base_system_prompt ++ "\n\n【参考资料】：\n" ++ "ctx" ++ "\n"
    ∧ ∀ m ∈ (handle_chat true (fun _ => "ctx") "re" [] "hi").2,
        m.role ≠ Role.system := by
  have h := system_prompt_recomputed true (fun _ => "ctx") "re" [] "hi"
  refine ⟨by simpa using h.1, by simpa using h.2.1, by decide,
    h.2.2.2.1 "ctx" (by decide),
    h.2.2.2.2 (fun m hm => by cases hm)⟩

/-- C10: the session's `knowledge_base_ready` flag is false initially and
after any build failure, read error or file removal; it is true only when
the most recent `build_vector_store` call returned a message beginning
with the success prefix; and with the flag false, `handle_chat` never
invokes the retrieval function — its result is independent of it. -/
theorem ready_flag_invariant :
    ReadyInv initState
    ∧ (∀ (split : String → List String) (remote : String → Option (List ℚ))
        (s : AppState) (e : UploadEvent),
        ReadyInv s → ReadyInv (sidebarStep split remote s e))
    ∧ ∀ (q₁ q₂ : String → String) (reply : String) (messages : List Message)
        (input : String),
        handle_chat false q₁ reply messages input
          = handle_chat false q₂ reply messages input := by
  refine ⟨?_, ?_, ?_⟩
  · intro h
    exact absurd h (by decide)
  · intro split remote s e hinv
    cases e with
    | newFile text =>
      intro hr
      exact ⟨(build_vector_store split remote text s.kb).1, rfl, hr⟩
    | newFileNoText => exact hinv
    | sameFile => exact hinv
    | readError => intro hr; cases hr
    | removed => intro hr; cases hr
  · intro q₁ q₂ reply messages input
    rfl

theorem ready_flag_invariant_witness :
    ReadyInv (sidebarStep (fun s => [s]) (fun _ => some [1]) initState
      (UploadEvent.newFile "abc"))
    ∧ handle_chat false (fun _ => "A") "re" [] "hi"
      = handle_chat false (fun _ => "B") "re" [] "hi" :=
  ⟨ready_flag_invariant.2.1 (fun s => [s]) (fun _ => some [1]) initState
      (UploadEvent.newFile "abc") (fun h => absurd h (by decide)),
   ready_flag_invariant.2.2 (fun _ => "A") (fun _ => "B") "re" [] "hi"⟩
